import Mathlib

/-!
Shallow embedding of the PackageNest registry core
(src/service/DefaultService.ts and src/queries/packageQueries.ts):
package ingestion (packageCreate), retrieval (packageRetrieve),
listing (packagesList) and registry reset (registryReset), together
with the identity derivation (uuid v5 over the joined name-version
string) and the base64 codec used at the blob-store boundary.

JavaScript-specific behavior is modelled explicitly: undefined is
Option.none, string interpolation of undefined yields "undefined",
and emptiness-based truthiness tests are the function jsFalsy.
-/

/-- JS falsiness for an optional string: undefined or the empty string. -/
def jsFalsy : Option String → Bool
  | none => true
  | some s => s = ""

/-- JS truthiness for an optional string. -/
def jsTruthy (o : Option String) : Bool := !(jsFalsy o)

/-- Whitespace as removed by the JS String.trim method (ASCII part). -/
def isWS (c : Char) : Bool := c = ' ' || c = '\t' || c = '\n' || c = '\r'

/-- Model of the JS String.trim method over the character list. -/
def jsTrimChars (l : List Char) : List Char :=
  ((l.dropWhile isWS).reverse.dropWhile isWS).reverse

/-- Model of the JS String.trim method. -/
def jsTrim (s : String) : String := String.mk (jsTrimChars s.data)

/-- JS template interpolation of a possibly-undefined string:
undefined prints as "undefined". -/
def tmpl : Option String → String
  | none => "undefined"
  | some s => s

/-- Model of the JS String.split method with a one-character separator
(also the split used by the version filters on "." and "-"). -/
def splitSep (sep : Char) : List Char → List (List Char)
  | [] => [[]]
  | c :: t =>
    if c = sep then [] :: splitSep sep t
    else
      match splitSep sep t with
      | [] => [[c]]
      | g :: gs => (c :: g) :: gs

/-- splitSep never returns the empty list of groups. -/
theorem splitSep_ne_nil (sep : Char) (l : List Char) : splitSep sep l ≠ [] := by
  induction l with
  | nil => simp [splitSep]
  | cons c t ih =>
    simp only [splitSep]
    split
    · simp
    · split
      · exact absurd (by assumption) ih
      · simp

/-- Base64 alphabet used by Buffer and btoa. -/
def b64Chars : List Char :=
  "ABCDEFGHIJKLMNOPQRSTUVWXYZabcdefghijklmnopqrstuvwxyz0123456789+/".data

/-- The character standing for a 6-bit value. -/
def valToChar (k : Nat) : Char := b64Chars.getD k '?'

/-- The 6-bit value of a base64 character, none for characters outside
the alphabet (padding and junk are skipped, as Node Buffer does). -/
def decChar? (c : Char) : Option Nat :=
  let i := b64Chars.indexOf c
  if i < 64 then some i else none

/-- Base64 encoding of a byte list, chunked three bytes to four chars. -/
def encodeChunks : List Nat → List Char
  | b0 :: b1 :: b2 :: rest =>
    valToChar (b0 / 4) :: valToChar ((b0 % 4) * 16 + b1 / 16) ::
    valToChar ((b1 % 16) * 4 + b2 / 64) :: valToChar (b2 % 64) :: encodeChunks rest
  | [b0, b1] =>
    [valToChar (b0 / 4), valToChar ((b0 % 4) * 16 + b1 / 16),
     valToChar ((b1 % 16) * 4), '=']
  | [b0] =>
    [valToChar (b0 / 4), valToChar ((b0 % 4) * 16), '=', '=']
  | [] => []

/-- Base64 decoding of a list of 6-bit values, four values to three bytes. -/
def decodeChunks : List Nat → List Nat
  | a :: b :: c :: d :: rest =>
    (a * 4 + b / 16) :: ((b % 16) * 16 + c / 4) :: ((c % 4) * 64 + d) ::
    decodeChunks rest
  | [a, b] => [a * 4 + b / 16]
  | [a, b, c] => [a * 4 + b / 16, (b % 16) * 16 + c / 4]
  | _ => []

/-- Buffer.toString("base64"): bytes to base64 text. -/
def base64Encode (bs : List Nat) : String := String.mk (encodeChunks bs)

/-- Buffer.from(s, "base64"): lenient base64 decoding, non-alphabet
characters (including padding) are skipped. -/
def base64Decode (s : String) : List Nat :=
  decodeChunks (s.data.filterMap decChar?)

/-- btoa: base64 over the code points of a (latin1) string. -/
def btoa (s : String) : String :=
  base64Encode (s.data.map Char.toNat)

/-! ## SHA-1 and uuid v5 (the identity derivation)

packageCreate computes the package identifier as
uuidv5(name ++ "-" ++ version, NAMESPACE) with the fixed namespace
6ba7b810-9dad-11d1-80b4-00c04fd430c8 (RFC 4122 name-based uuid over
SHA-1). 32-bit machine words are Nat values reduced mod 2^32. -/

/-- 32-bit left rotation. -/
def rotl32 (x k : Nat) : Nat :=
  ((x <<< k) ||| (x >>> (32 - k))) % 4294967296

/-- SHA-1 round function. -/
def sha1F (t b c d : Nat) : Nat :=
  if t < 20 then (b &&& c) ||| ((4294967295 - b) &&& d)
  else if t < 40 then b ^^^ c ^^^ d
  else if t < 60 then (b &&& c) ||| (b &&& d) ||| (c &&& d)
  else b ^^^ c ^^^ d

/-- SHA-1 round constant. -/
def sha1K (t : Nat) : Nat :=
  if t < 20 then 0x5a827999
  else if t < 40 then 0x6ed9eba1
  else if t < 60 then 0x8f1bbcdc
  else 0xca62c1d6

/-- Big-endian 32-bit words from bytes (input length a multiple of 4). -/
def bytesToWords : List Nat → List Nat
  | a :: b :: c :: d :: rest => (a * 16777216 + b * 65536 + c * 256 + d) :: bytesToWords rest
  | _ => []

/-- SHA-1 message-schedule extension, most recent word first:
n more words pushed on the front of the accumulator. -/
def sha1ExtendAux : Nat → List Nat → List Nat
  | 0, acc => acc
  | n + 1, acc =>
    let x := rotl32 (acc.getD 2 0 ^^^ acc.getD 7 0 ^^^ acc.getD 13 0 ^^^ acc.getD 15 0) 1
    sha1ExtendAux n (x :: acc)

/-- The 80-word message schedule of one 64-byte chunk, in round order. -/
def sha1Schedule (chunk : List Nat) : List Nat :=
  (sha1ExtendAux 64 (bytesToWords chunk).reverse).reverse

/-- SHA-1 compression rounds over the message schedule,
t being the round index. -/
def sha1Rounds (t : Nat) (st : Nat × Nat × Nat × Nat × Nat) :
    List Nat → Nat × Nat × Nat × Nat × Nat
  | [] => st
  | wt :: rest =>
    let (a, b, c, d, e) := st
    let tmp := (rotl32 a 5 + sha1F t b c d + e + sha1K t + wt) % 4294967296
    sha1Rounds (t + 1) (tmp, a, rotl32 b 30, c, d) rest

/-- SHA-1 compression of one 64-byte chunk. -/
def sha1Chunk (h0 h1 h2 h3 h4 : Nat) (chunk : List Nat) :
    Nat × Nat × Nat × Nat × Nat :=
  let (a, b, c, d, e) := sha1Rounds 0 (h0, h1, h2, h3, h4) (sha1Schedule chunk)
  ((h0 + a) % 4294967296, (h1 + b) % 4294967296, (h2 + c) % 4294967296,
   (h3 + d) % 4294967296, (h4 + e) % 4294967296)

/-- Fold SHA-1 compression over 64-byte chunks; the fuel argument is an
upper bound on the number of chunks (each step consumes 64 bytes). -/
def sha1Iter : Nat → (Nat × Nat × Nat × Nat × Nat) → List Nat → Nat × Nat × Nat × Nat × Nat
  | _, st, [] => st
  | 0, st, _ => st
  | n + 1, st, b :: rest =>
    let (h0, h1, h2, h3, h4) := st
    sha1Iter n (sha1Chunk h0 h1 h2 h3 h4 ((b :: rest).take 64)) ((b :: rest).drop 64)

/-- Big-endian bytes of a word, most significant first. -/
def wordBytes (n : Nat) (x : Nat) : List Nat :=
  (List.range n).reverse.map (fun i => (x >>> (8 * i)) % 256)

/-- SHA-1 padding: 0x80, zeros, 64-bit big-endian bit length. -/
def sha1Pad (msg : List Nat) : List Nat :=
  let zeros := (55 + 64 - msg.length % 64) % 64
  msg ++ [0x80] ++ List.replicate zeros 0 ++ wordBytes 8 (msg.length * 8)

/-- SHA-1 digest (20 bytes) of a byte list. -/
def sha1 (msg : List Nat) : List Nat :=
  let padded := sha1Pad msg
  let (h0, h1, h2, h3, h4) :=
    sha1Iter padded.length
      (0x67452301, 0xefcdab89, 0x98badcfe, 0x10325476, 0xc3d2e1f0) padded
  wordBytes 4 h0 ++ wordBytes 4 h1 ++ wordBytes 4 h2 ++ wordBytes 4 h3 ++ wordBytes 4 h4

/-- Lowercase hex digit. -/
def hexDigit (k : Nat) : Char := "0123456789abcdef".data.getD k '?'

/-- Lowercase hex of a byte list. -/
def bytesToHex (bs : List Nat) : List Char :=
  bs.flatMap (fun b => [hexDigit (b / 16), hexDigit (b % 16)])

/-- UTF-8 bytes of one code point. -/
def utf8Bytes (c : Char) : List Nat :=
  let n := c.toNat
  if n < 0x80 then [n]
  else if n < 0x800 then [0xc0 + n / 64, 0x80 + n % 64]
  else if n < 0x10000 then [0xe0 + n / 4096, 0x80 + n / 64 % 64, 0x80 + n % 64]
  else [0xf0 + n / 262144, 0x80 + n / 4096 % 64, 0x80 + n / 64 % 64, 0x80 + n % 64]

/-- UTF-8 bytes of a string. -/
def strBytes (s : String) : List Nat := s.data.flatMap utf8Bytes

/-- The namespace constant from packageCreate,
"6ba7b810-9dad-11d1-80b4-00c04fd430c8", as its sixteen bytes. -/
def namespaceBytes : List Nat :=
  [0x6b, 0xa7, 0xb8, 0x10, 0x9d, 0xad, 0x11, 0xd1,
   0x80, 0xb4, 0x00, 0xc0, 0x4f, 0xd4, 0x30, 0xc8]

/-- uuid v5 of a name under the fixed namespace: SHA-1 of namespace
bytes followed by the UTF-8 name, truncated to 16 bytes with version 5
and RFC 4122 variant bits set, rendered 8-4-4-4-12. -/
def uuidv5 (name : String) : String :=
  let d := (sha1 (namespaceBytes ++ strBytes name)).take 16
  let d := d.set 6 ((d.getD 6 0 &&& 0x0f) ||| 0x50)
  let d := d.set 8 ((d.getD 8 0 &&& 0x3f) ||| 0x80)
  let h := bytesToHex d
  String.mk (h.take 8 ++ '-' :: (h.drop 8).take 4 ++ '-' :: (h.drop 12).take 4 ++
             '-' :: (h.drop 16).take 4 ++ '-' :: h.drop 20)

/-- The identity derivation of packageCreate (line 388): uuid v5 of
the template-joined string name-version under the fixed namespace. -/
def identity (name version : String) : String :=
  uuidv5 (name ++ "-" ++ version)

/-! ## Data model: error values, rows, stores, environments -/

/-- The single-quote character, kept out of string literals. -/
def quoteChar : String := String.mk [Char.ofNat 39]

/-- The validation message of packageCreate line 348 (Content/URL names
are single-quoted in the source message). -/
def invalidBodyMsg : String :=
  "Invalid request body. " ++ quoteChar ++ "Content" ++ quoteChar ++ " or " ++ quoteChar ++ "URL" ++
  quoteChar ++ " (exclusively) is required."

/-- Modelled from the spec: the CustomError type of src/utils/types
(not under src/), carrying a message and an HTTP-like status code, as
constructed throughout DefaultService with new CustomError(msg, code). -/
structure CustomError where
  message : String
  status : Nat
deriving Repr, DecidableEq

/-- A row of the public.packages table: serial id (the insertion
counter), name, version, package_id and content_type columns, as read
back by packageRetrieve and packagesList. -/
structure PackageRow where
  rowId : Nat
  name : Option String
  version : String
  packageId : String
  contentType : Bool
deriving Repr, DecidableEq

/-- A row of the package metadata table (second insert of ingestion). -/
structure MetadataRow where
  name : Option String
  version : String
  packageId : String
deriving Repr, DecidableEq

/-- A row of the public.package_data table (third insert of ingestion). -/
structure PackageDataRow where
  packageId : String
  contentType : Bool
  url : Option String
  debloat : Bool
  jsProgram : Option String
deriving Repr, DecidableEq

/-- The two stores: the S3 blob store (key to bytes; newest entry
first, lookups take the newest) and the three relational tables.
packages rows are stored in ascending serial-id order, so the ORDER BY
id of getPackages is the list order. -/
structure RegistryState where
  blobs : List (String × List Nat)
  packages : List PackageRow
  metadata : List MetadataRow
  packageData : List PackageDataRow
deriving Repr, DecidableEq

/-- The empty registry. -/
def RegistryState.empty : RegistryState := ⟨[], [], [], []⟩

/-- s3.getObject: newest write at a key wins. -/
def lookupBlob (st : RegistryState) (key : String) : Option (List Nat) :=
  (st.blobs.find? (fun kv => kv.1 == key)).map (fun kv => kv.2)

/-- s3.putObject. -/
def putBlob (st : RegistryState) (key : String) (body : List Nat) : RegistryState :=
  { st with blobs := (key, body) :: st.blobs }

/-- Modelled from the spec: packageQueries.packageExistsQuery (not
under src/), the Existence Guard of section 4.2 - a single read against
the metadata store answering whether the identity already exists. -/
def packageExistsQuery (st : RegistryState) (id : String) : Bool :=
  st.packages.any (fun r => r.packageId == id)

/-- Modelled from the spec: packageQueries.insertPackageQuery (not
under src/), the first relational insert of ingestion (section 4.4
step 3), appending a packages row with a fresh serial id. -/
def insertPackageQuery (st : RegistryState) (name : Option String)
    (version : String) (id : String) (contentType : Bool) : RegistryState :=
  { st with packages := st.packages ++ [⟨st.packages.length, name, version, id, contentType⟩] }

/-- Modelled from the spec: packageQueries.insertIntoMetadataQuery (not
under src/), the second relational insert of ingestion. -/
def insertIntoMetadataQuery (st : RegistryState) (name : Option String)
    (version : String) (id : String) : RegistryState :=
  { st with metadata := st.metadata ++ [⟨name, version, id⟩] }

/-- Modelled from the spec: packageQueries.insertIntoPackageDataQuery
(not under src/), the third relational insert of ingestion. -/
def insertIntoPackageDataQuery (st : RegistryState) (id : String)
    (contentType : Bool) (url : Option String) (debloat : Bool)
    (jsProgram : Option String) : RegistryState :=
  { st with packageData := st.packageData ++ [⟨id, contentType, url, debloat, jsProgram⟩] }

/-- The metadata object of an ingestion request body. -/
structure CreateMetadata where
  Version : Option String
  ID : Option String
  Name : Option String
deriving Repr, DecidableEq

/-- Response metadata triple. -/
structure ResponseMetadata where
  Name : Option String
  Version : Option String
  ID : String
deriving Repr, DecidableEq

/-- Response data pair. -/
structure ResponseData where
  Content : Option String
  JSProgram : Option String
deriving Repr, DecidableEq

/-- The response shape of packageCreate and packageRetrieve. -/
structure PackageResponse where
  metadata : ResponseMetadata
  data : ResponseData
deriving Repr, DecidableEq

/-- External collaborators of ingestion: the S3 bucket configuration,
the Origin Resolver (getPackageInfoRepo over a GitHub repo and
getPackageInfoZipFile over inline content, none modelling a thrown
resolution error, and each success carrying the possibly-absent name
and version fields of the package json), the archive download
(axios in downloadFile, none modelling a network failure), and whether
s3.putObject succeeds. -/
structure CreateEnv where
  bucketName : Option String
  repoInfo : String → String → Option (Option String × Option String)
  zipInfo : String → Option (Option String × Option String)
  download : String → Option (List Nat)
  s3PutOk : Bool

/-! ## GitHub URL matching (packageCreate line 354) -/

/-- Attempt of the regex github.com/([^/]+)/([^/]+) at the head of the
character list: the literal, a nonempty slash-free owner, a slash, and
a nonempty slash-free repo (greedy, further groups optional). -/
def matchGithubAt (l : List Char) : Option (String × String) :=
  if "github.com/".data.isPrefixOf l then
    let rest := l.drop 11
    let owner := rest.takeWhile (fun c => !(c = '/'))
    let rest2 := rest.drop owner.length
    match owner, rest2 with
    | [], _ => none
    | _, '/' :: rest3 =>
      let repo := rest3.takeWhile (fun c => !(c = '/'))
      if repo.isEmpty then none else some (String.mk owner, String.mk repo)
    | _, _ => none
  else none

/-- Unanchored search of the GitHub URL regex: first position at which
the whole pattern matches. -/
def findGithub : List Char → Option (String × String)
  | [] => none
  | c :: t =>
    match matchGithubAt (c :: t) with
    | some r => some r
    | none => findGithub t

/-- URL.match(/github\.com\/([^/]+)\/([^/]+).../): the owner and repo
capture groups, none when the URL does not match. -/
def matchGithubUrl (url : String) : Option (String × String) :=
  findGithub url.data

/-! ## Ingestion (packageCreate, lines 318-498) -/

/-- Name/version resolution of packageCreate lines 351-384: when
neither the request metadata nor the body supplies a name, the Origin
Resolver is consulted (URL branch first), and its name AND version
overwrite the current values; a body Name wins over metadata name.
Returns the effective (name, version) pair and the matched repo
owner/name when the URL regex ran. -/
def resolveNameVersion (packageName0 packageVersion1 Name Content URL : Option String)
    (env : CreateEnv) :
    Except CustomError (Option String × Option String × Option (String × String)) :=
  if jsFalsy packageName0 && jsFalsy Name then
    match URL with
    | some u =>
      match matchGithubUrl u with
      | none => .error ⟨"Invalid GitHub URL format", 400⟩
      | some (owner, repo) =>
        match env.repoInfo owner repo with
        | none => .error ⟨"Failed to retrieve package info from package json using URL", 500⟩
        | some (n, v) => .ok (n, v, some (owner, repo))
    | none =>
      match Content with
      | some c =>
        match env.zipInfo c with
        | none => .error ⟨"Failed to retrieve package info from package json", 500⟩
        | some (n, v) => .ok (n, v, none)
      | none => .ok (packageName0, packageVersion1, none)
  else if jsTruthy Name then .ok (some (jsTrim (Name.getD "")), packageVersion1, none)
  else .ok (packageName0, packageVersion1, none)

/-- The blob key of ingestion (lines 414 and 441):
packages/{name}/v{version}/package.zip over the JS-interpolated
effective name and version. -/
def createBlobKey (pn pv : Option String) : String :=
  "packages/" ++ tmpl pn ++ "/v" ++ tmpl pv ++ "/package.zip"

/-- The id check of line 388: a missing, empty or mismatched
client-supplied id is silently replaced by the derived identity. -/
def derivedPackageId (packageId0 : Option String) (theId : String) : String :=
  match packageId0 with
  | none => theId
  | some p => if p = "" ∨ ¬(p = theId) then theId else p

/-- The rest of packageCreate after name/version resolution (lines
386-497): identity derivation with silent overwrite of a mismatched
client id, bucket check, Existence Guard, blob upload of the decoded
bytes (inline branch) or of the downloaded archive (URL branch, where
the response Content is btoa of the already-base64 download), then the
three relational inserts and the response. -/
def packageCreateResolved (pn pv packageId0 : Option String)
    (repo : Option (String × String)) (Content JSProgram URL : Option String)
    (debloatVal : Bool) (env : CreateEnv) (st : RegistryState) :
    Except CustomError PackageResponse × RegistryState :=
  let theId := identity (tmpl pn) (tmpl pv)
  let packageId := derivedPackageId packageId0 theId
  if jsFalsy env.bucketName then
    (.error ⟨"S3_BUCKET_NAME is not defined in the environment variables.", 500⟩, st)
  else if packageExistsQuery st packageId then
    (.error ⟨"Package already exists.", 409⟩, st)
  else
    let upload : Except CustomError (Option String × Option String × RegistryState) :=
      if jsTruthy Content && jsFalsy URL then
        if env.s3PutOk then
          .ok (Content, none, putBlob st (createBlobKey pn pv) (base64Decode (Content.getD "")))
        else .error ⟨"Failed to upload content", 500⟩
      else if jsTruthy URL && jsFalsy Content then
        let apiUrl := "https://api.github.com/repos/" ++ tmpl (repo.map (fun r => r.1)) ++
          "/" ++ tmpl (repo.map (fun r => r.2)) ++ "/zipball"
        match env.download apiUrl with
        | none => .error ⟨"Failed to download or upload package from URL", 500⟩
        | some bytes =>
          let contentBuffer := base64Encode bytes
          if env.s3PutOk then
            .ok (some (btoa contentBuffer), some contentBuffer,
                 putBlob st (createBlobKey pn pv) (base64Decode contentBuffer))
          else .error ⟨"Failed to download or upload package from URL", 500⟩
      else .ok (none, none, st)
    match upload with
    | .error e => (.error e, st)
    | .ok (returnString, contentBuffer, st1) =>
      let ct := jsFalsy contentBuffer
      let st2 := insertPackageQuery st1 pn (pv.getD "1.0.0") packageId ct
      let st3 := insertIntoMetadataQuery st2 pn (pv.getD "1.0.0") packageId
      let st4 := insertIntoPackageDataQuery st3 packageId ct URL debloatVal JSProgram
      (.ok ⟨⟨pn, pv, packageId⟩, ⟨returnString, JSProgram⟩⟩, st4)

/-- packageCreate (lines 318-498): trim the metadata fields, default
the version to 1.0.0 when absent or empty, require exactly one (JS
truthy) of Content and URL, resolve the effective name and version,
then run the guarded dual-store write. -/
def packageCreate (Content JSProgram URL : Option String) (debloat : Option Bool)
    (Name : Option String) (metadata : Option CreateMetadata) (env : CreateEnv)
    (st : RegistryState) : Except CustomError PackageResponse × RegistryState :=
  let packageName0 := (metadata.bind CreateMetadata.Name).map jsTrim
  let packageVersion0 := (metadata.bind CreateMetadata.Version).map jsTrim
  let packageId0 := (metadata.bind CreateMetadata.ID).map jsTrim
  let debloatVal := debloat.getD false
  let packageVersion1 := if jsFalsy packageVersion0 then some "1.0.0" else packageVersion0
  if (jsFalsy URL && jsFalsy Content) || (jsTruthy URL && jsTruthy Content) then
    (.error ⟨invalidBodyMsg, 400⟩, st)
  else
    match resolveNameVersion packageName0 packageVersion1 Name Content URL env with
    | .error e => (.error e, st)
    | .ok (pn, pv, repo) =>
      packageCreateResolved pn pv packageId0 repo Content JSProgram URL debloatVal env st

/-! ## Retrieval (packageRetrieve, lines 654-735) -/

/-- The body of the try block of packageRetrieve: join packages and
package_data on the package id, then read the blob at the key built
from the package ID (line 697) and hand back its base64. A miss in S3
surfaces as the AWS NoSuchKey error message (the status of the
modelled infrastructure error is irrelevant: the catch replaces it);
an empty S3 body is falsy in JS and yields the inner 404. -/
def packageRetrieveInner (id : String) (st : RegistryState) :
    Except CustomError PackageResponse :=
  match st.packages.find? (fun r => r.packageId == id),
        st.packageData.find? (fun r => r.packageId == id) with
  | some p, some pd =>
    let s3Key := "packages/" ++ p.packageId ++ "/v" ++ p.version ++ "/package.zip"
    match lookupBlob st s3Key with
    | none => .error ⟨"The specified key does not exist.", 500⟩
    | some body =>
      let content := base64Encode body
      if content = "" then .error ⟨"Package content not found in S3.", 404⟩
      else .ok ⟨⟨p.name, some p.version, p.packageId⟩, ⟨some content, pd.jsProgram⟩⟩
  | _, _ => .error ⟨"Package not found.", 404⟩

/-- packageRetrieve (lines 654-735): bucket check, then the try block;
the catch on line 731 wraps EVERY inner error into a 500 whose message
is the inner message behind the fixed text. -/
def packageRetrieve (bucketName : Option String) (id : String) (st : RegistryState) :
    Except CustomError PackageResponse :=
  if jsFalsy bucketName then
    .error ⟨"S3_BUCKET_NAME is not defined in the environment variables.", 500⟩
  else
    match packageRetrieveInner id st with
    | .ok r => .ok r
    | .error e => .error ⟨"Failed to retrieve package: " ++ e.message, 500⟩

/-! ## Listing (packagesList, lines 765-901, and getPackages) -/

/-- A list-query filter entry (the PackageQuery interface). -/
structure PackageQuery where
  Version : Option String
  ID : Option String
  Name : Option String
deriving Repr, DecidableEq

/-- The response of packagesList. -/
structure PackagesListResponse where
  packages : List PackageRow
  nextOffset : Option Nat
deriving Repr, DecidableEq

/-- A nonempty all-digit character group. -/
def digitsGroup (g : List Char) : Bool := !g.isEmpty && g.all Char.isDigit

/-- The exact-version regex of line 798 over characters: three
nonempty digit groups separated by dots. -/
def isExactChars (l : List Char) : Bool :=
  match splitSep '.' l with
  | [a, b, c] => digitsGroup a && digitsGroup b && digitsGroup c
  | _ => false

/-- The bounded-range regex of line 799: two exact versions separated
by one dash. -/
def isBoundedChars (l : List Char) : Bool :=
  match splitSep '-' l with
  | [a, b] => isExactChars a && isExactChars b
  | _ => false

/-- The caret regex of line 800. -/
def isCaretChars : List Char → Bool
  | '^' :: t => isExactChars t
  | _ => false

/-- The tilde regex of line 801. -/
def isTildeChars : List Char → Bool
  | '~' :: t => isExactChars t
  | _ => false

/-- How many of the four version forms a string matches (the length of
the filtered versionFormats list at line 803). -/
def formCount (s : String) : Nat :=
  (if isExactChars s.data then 1 else 0) + (if isBoundedChars s.data then 1 else 0) +
  (if isCaretChars s.data then 1 else 0) + (if isTildeChars s.data then 1 else 0)

/-- Nat value of a digit list. -/
def natOfDigits (l : List Char) : Nat :=
  l.foldl (fun a c => a * 10 + (c.toNat - 48)) 0

/-- The integer Postgres obtains when casting the text bound to the
serial id column; none models a cast failure. -/
def parsePgInt (s : String) : Option Int :=
  match jsTrimChars s.data with
  | '-' :: t => if digitsGroup t then some (-(Int.ofNat (natOfDigits t))) else none
  | '+' :: t => if digitsGroup t then some (Int.ofNat (natOfDigits t)) else none
  | t => if digitsGroup t then some (Int.ofNat (natOfDigits t)) else none

/-- The version condition pushed for one validated filter entry (lines
829-862): equality for the exact form, inclusive text-ordering range
for the bounded form, and the LIKE conditions of the caret and tilde
forms (a trailing percent in a LIKE pattern whose stem is literal is a
starts-with test). The final branch mirrors the unreachable 400 at
line 860. -/
def versionConds (v : String) : Except CustomError (List (PackageRow → Bool)) :=
  if isExactChars v.data then .ok [fun r => r.version == v]
  else if isBoundedChars v.data then
    let groups := splitSep '-' v.data
    let startVersion := String.mk (groups.getD 0 [])
    let endVersion := String.mk (groups.getD 1 [])
    .ok [fun r => decide (startVersion ≤ r.version) && decide (r.version ≤ endVersion)]
  else if isCaretChars v.data then
    let major := String.mk ((splitSep '.' (v.data.drop 1)).getD 0 [])
    .ok [fun r => r.version.startsWith (major ++ ".")]
  else if isTildeChars v.data then
    let groups := splitSep '.' (v.data.drop 1)
    let major := String.mk (groups.getD 0 [])
    let minor := String.mk (groups.getD 1 [])
    .ok [fun r => r.version.startsWith (major ++ "." ++ minor ++ ".")]
  else .error ⟨"Invalid version format: " ++ v, 400⟩

/-- The conditions of one filter entry (lines 791-868): the ambiguity
validation over the UNtrimmed Version (line 804), then the Name, ID
and trimmed-Version conditions in source order. -/
def entryConds (q : PackageQuery) : Except CustomError (List (PackageRow → Bool)) :=
  if jsTruthy q.Version && !(formCount (q.Version.getD "") == 1) then
    .error ⟨"Invalid or ambiguous version format: " ++ q.Version.getD "", 400⟩
  else
    let nameConds : List (PackageRow → Bool) :=
      if jsTruthy q.Name then [fun r => r.name == q.Name] else []
    let idConds : List (PackageRow → Bool) :=
      if jsTruthy q.ID then
        [fun r => (parsePgInt (q.ID.getD "")).any (fun n => n == Int.ofNat r.rowId)]
      else []
    match (if jsTruthy q.Version then versionConds (jsTrim (q.Version.getD "")) else .ok []) with
    | .error e => .error e
    | .ok vConds => .ok (nameConds ++ idConds ++ vConds)

/-- The loop of lines 791-869: entries processed in order, the first
throw aborting; entries whose condition list is empty contribute no
disjunct. -/
def buildConds : List PackageQuery → Except CustomError (List (PackageRow → Bool))
  | [] => .ok []
  | q :: rest =>
    match entryConds q with
    | .error e => .error e
    | .ok conds =>
      match buildConds rest with
      | .error e => .error e
      | .ok preds =>
        .ok (if conds.isEmpty then preds else (fun r => conds.all (fun c => c r)) :: preds)

/-- The wildcard special case of line 784: a single entry whose Name
is the literal star. -/
def isStarQuery : List PackageQuery → Bool
  | [q] => q.Name == some "*"
  | _ => false

/-- Whether some entry binds a text that Postgres cannot cast to the
integer id column; the resulting driver error is not a CustomError and
the catch of line 896 reports it as the generic 500. -/
def hasBadIdBind (body : List PackageQuery) : Bool :=
  body.any (fun q => jsTruthy q.ID && (parsePgInt (q.ID.getD "")).isNone)

/-- The matched row set of a list query, before pagination: all rows
for the empty body, the wildcard, or a body whose entries contribute
no condition; otherwise the OR of the entry predicates (lines
782-883 together with the WHERE built by getPackages). -/
def listMatchedRows (body : List PackageQuery) (st : RegistryState) :
    Except CustomError (List PackageRow) :=
  if body.isEmpty || isStarQuery body then .ok st.packages
  else
    match buildConds body with
    | .error e => .error e
    | .ok preds =>
      if hasBadIdBind body then .error ⟨"An unexpected error occurred.", 500⟩
      else .ok (if preds.isEmpty then st.packages
                else st.packages.filter (fun r => preds.any (fun p => p r)))

/-- getPackages (packageQueries lines 4-27) combined with packagesList
(lines 765-901): ORDER BY id is the stored order, LIMIT 10 OFFSET
offsetValue is drop-then-take, and nextOffset is offset plus 10
exactly when 10 rows came back (line 886). -/
def packagesList (body : List PackageQuery) (offsetValue : Nat) (st : RegistryState) :
    Except CustomError PackagesListResponse :=
  match listMatchedRows body st with
  | .error e => .error e
  | .ok rows =>
    let pagePackages := (rows.drop offsetValue).take 10
    let nextOffset := if pagePackages.length == 10 then some (offsetValue + 10) else none
    .ok ⟨pagePackages, nextOffset⟩

/-! ## Registry reset (registryReset, lines 927-968) -/

/-- Modelled from the spec: executeSqlFile of src/queries/resetDB (not
under src/), the full schema reset of section 4.6 phase 2 - drops and
reinitializes all package, metadata and data tables. -/
def executeSqlFile (st : RegistryState) : RegistryState :=
  { st with packages := [], metadata := [], packageData := [] }

/-- Fault model of the two reset phases: none means the phase
succeeds, some m a failure whose error message is m. -/
structure ResetEnv where
  bucketName : Option String
  s3Error : Option String
  dbError : Option String

/-- registryReset (lines 927-968): bucket check (outside the try, so
unwrapped), then phase 1 (list the blobs under the packages/ key and
bulk-delete them), then phase 2 (executeSqlFile); a failure in either
phase is rethrown with the fixed wrapping text and nothing is rolled
back. -/
def registryReset (env : ResetEnv) (st : RegistryState) :
    Except String Unit × RegistryState :=
  if jsFalsy env.bucketName then
    (.error "S3_BUCKET_NAME is not defined in the environment variables.", st)
  else
    match env.s3Error with
    | some m => (.error ("Failed to reset registry: " ++ m), st)
    | none =>
      let st1 := { st with blobs := st.blobs.filter (fun kv => !(kv.1.startsWith "packages/")) }
      match env.dbError with
      | some m => (.error ("Failed to reset registry: " ++ m), st1)
      | none => (.ok (), executeSqlFile st1)

/-! ## Helper lemmas -/

set_option maxRecDepth 100000

/-- Decoding inverts the alphabet on 6-bit values. -/
theorem decChar_valToChar : ∀ k < 64, decChar? (valToChar k) = some k := by decide

/-- Padding is not in the alphabet. -/
theorem decChar_pad : decChar? '=' = none := by decide

/-- Base64 chunk decoding inverts chunk encoding on byte lists. -/
theorem decodeChunks_encodeChunks : ∀ bs : List Nat, (∀ b ∈ bs, b < 256) →
    decodeChunks ((encodeChunks bs).filterMap decChar?) = bs := by
  intro bs
  induction bs using encodeChunks.induct with
  | case1 b0 b1 b2 rest ih =>
    intro h
    have hb0 : b0 < 256 := h b0 (by simp)
    have hb1 : b1 < 256 := h b1 (by simp)
    have hb2 : b2 < 256 := h b2 (by simp)
    have h1 : decChar? (valToChar (b0 / 4)) = some (b0 / 4) :=
      decChar_valToChar _ (by omega)
    have h2 : decChar? (valToChar ((b0 % 4) * 16 + b1 / 16)) = some ((b0 % 4) * 16 + b1 / 16) :=
      decChar_valToChar _ (by omega)
    have h3 : decChar? (valToChar ((b1 % 16) * 4 + b2 / 64)) = some ((b1 % 16) * 4 + b2 / 64) :=
      decChar_valToChar _ (by omega)
    have h4 : decChar? (valToChar (b2 % 64)) = some (b2 % 64) :=
      decChar_valToChar _ (by omega)
    have ih2 := ih (fun b hb => h b (by simp [hb]))
    simp only [encodeChunks, List.filterMap_cons, h1, h2, h3, h4, decodeChunks, ih2,
      List.cons.injEq]
    refine ⟨by omega, by omega, by omega, trivial⟩
  | case2 b0 b1 =>
    intro h
    have hb0 : b0 < 256 := h b0 (by simp)
    have hb1 : b1 < 256 := h b1 (by simp)
    have h1 : decChar? (valToChar (b0 / 4)) = some (b0 / 4) :=
      decChar_valToChar _ (by omega)
    have h2 : decChar? (valToChar ((b0 % 4) * 16 + b1 / 16)) = some ((b0 % 4) * 16 + b1 / 16) :=
      decChar_valToChar _ (by omega)
    have h3 : decChar? (valToChar ((b1 % 16) * 4)) = some ((b1 % 16) * 4) :=
      decChar_valToChar _ (by omega)
    simp only [encodeChunks, List.filterMap_cons, h1, h2, h3, decChar_pad, decodeChunks,
      List.cons.injEq]
    refine ⟨by omega, by omega, trivial⟩
  | case3 b0 =>
    intro h
    have hb0 : b0 < 256 := h b0 (by simp)
    have h1 : decChar? (valToChar (b0 / 4)) = some (b0 / 4) :=
      decChar_valToChar _ (by omega)
    have h2 : decChar? (valToChar ((b0 % 4) * 16)) = some ((b0 % 4) * 16) :=
      decChar_valToChar _ (by omega)
    simp only [encodeChunks, List.filterMap_cons, h1, h2, decChar_pad, decodeChunks,
      List.cons.injEq]
    refine ⟨by omega, trivial⟩
  | case4 => intro _; rfl

/-- Base64 decoding inverts encoding on byte lists: the blob body
written in the URL branch of ingestion is exactly the downloaded
archive bytes. -/
theorem base64_decode_encode (bs : List Nat) (h : ∀ b ∈ bs, b < 256) :
    base64Decode (base64Encode bs) = bs := by
  unfold base64Decode base64Encode
  exact decodeChunks_encodeChunks bs h

/-- Every character of a list is either the separator or sits in one
of the splitSep groups. -/
theorem splitSep_mem (sep : Char) (l : List Char) (c : Char) (hc : c ∈ l) :
    c = sep ∨ ∃ g, g ∈ splitSep sep l ∧ c ∈ g := by
  induction l with
  | nil => simp at hc
  | cons x t ih =>
    rcases List.mem_cons.mp hc with hx | ht
    · subst hx
      by_cases hs : c = sep
      · exact Or.inl hs
      · right
        simp only [splitSep, if_neg hs]
        rcases hg : splitSep sep t with _ | ⟨g, gs⟩
        · exact absurd hg (splitSep_ne_nil sep t)
        · exact ⟨c :: g, by simp, by simp⟩
    · rcases ih ht with hs | ⟨g, hg, hcg⟩
      · exact Or.inl hs
      · right
        simp only [splitSep]
        split
        · exact ⟨g, by simp [hg], hcg⟩
        · rcases hsplit : splitSep sep t with _ | ⟨g0, gs⟩
          · exact absurd hsplit (splitSep_ne_nil sep t)
          · rw [hsplit] at hg
            rcases List.mem_cons.mp hg with hgg | hgs
            · subst hgg
              exact ⟨x :: g, by simp, by simp [hcg]⟩
            · exact ⟨g, by simp [hgs], hcg⟩

/-- Digits are not JS whitespace. -/
theorem digit_not_isWS (c : Char) (h : c.isDigit = true) : isWS c = false := by
  cases hw : isWS c
  · rfl
  · exfalso
    simp only [isWS, Bool.or_eq_true, decide_eq_true_eq] at hw
    rcases hw with ((h1 | h1) | h1) | h1 <;> subst h1 <;> simp at h

/-- Members of an all-digit group are not whitespace. -/
theorem digitsGroup_not_isWS (g : List Char) (h : digitsGroup g = true)
    (c : Char) (hc : c ∈ g) : isWS c = false := by
  simp only [digitsGroup, Bool.and_eq_true, List.all_eq_true] at h
  exact digit_not_isWS c (h.2 c hc)

/-- No character of an exact-form version is whitespace. -/
theorem noWS_of_exact (l : List Char) (h : isExactChars l = true)
    (c : Char) (hc : c ∈ l) : isWS c = false := by
  unfold isExactChars at h
  split at h
  · rename_i a b c3 heq
    simp only [Bool.and_eq_true] at h
    rcases splitSep_mem '.' l c hc with hs | ⟨g, hg, hcg⟩
    · subst hs; rfl
    · rw [heq] at hg
      rcases List.mem_cons.mp hg with h1 | hg
      · exact digitsGroup_not_isWS a (by exact h.1.1) c (h1 ▸ hcg)
      rcases List.mem_cons.mp hg with h1 | hg
      · exact digitsGroup_not_isWS b (by exact h.1.2) c (h1 ▸ hcg)
      rcases List.mem_cons.mp hg with h1 | hg
      · exact digitsGroup_not_isWS c3 (by exact h.2) c (h1 ▸ hcg)
      · simp at hg
  · exact absurd h (by simp)

/-- No character of any of the four version forms is whitespace. -/
theorem noWS_of_form (l : List Char)
    (h : (isExactChars l || isBoundedChars l || isCaretChars l || isTildeChars l) = true)
    (c : Char) (hc : c ∈ l) : isWS c = false := by
  simp only [Bool.or_eq_true] at h
  rcases h with ((hex | hbd) | hcr) | htl
  · exact noWS_of_exact l hex c hc
  · unfold isBoundedChars at hbd
    split at hbd
    · rename_i a b heq
      simp only [Bool.and_eq_true] at hbd
      rcases splitSep_mem '-' l c hc with hs | ⟨g, hg, hcg⟩
      · subst hs; rfl
      · rw [heq] at hg
        rcases List.mem_cons.mp hg with h1 | hg
        · exact noWS_of_exact a hbd.1 c (h1 ▸ hcg)
        rcases List.mem_cons.mp hg with h1 | hg
        · exact noWS_of_exact b hbd.2 c (h1 ▸ hcg)
        · simp at hg
    · exact absurd hbd (by simp)
  · unfold isCaretChars at hcr
    split at hcr
    · rename_i t
      rcases List.mem_cons.mp hc with h1 | ht
      · subst h1; rfl
      · exact noWS_of_exact t hcr c ht
    · exact absurd hcr (by simp)
  · unfold isTildeChars at htl
    split at htl
    · rename_i t
      rcases List.mem_cons.mp hc with h1 | ht
      · subst h1; rfl
      · exact noWS_of_exact t htl c ht
    · exact absurd htl (by simp)

/-- Trimming a whitespace-free character list changes nothing. -/
theorem jsTrimChars_eq_of_noWS (l : List Char) (h : ∀ c ∈ l, isWS c = false) :
    jsTrimChars l = l := by
  have h1 : l.dropWhile isWS = l := by
    cases l with
    | nil => rfl
    | cons x t => simp [List.dropWhile_cons, h x (by simp)]
  have h2 : l.reverse.dropWhile isWS = l.reverse := by
    cases hr : l.reverse with
    | nil => rfl
    | cons x t =>
      have hx : x ∈ l := by
        have : x ∈ l.reverse := by simp [hr]
        simpa using this
      simp [List.dropWhile_cons, h x hx]
  unfold jsTrimChars
  rw [h1, h2, List.reverse_reverse]

/-- A version matching at least one form yields conditions (the
unreachable 400 of line 860 is dead once a form matched). -/
theorem versionConds_ok (v : String)
    (h : (isExactChars v.data || isBoundedChars v.data || isCaretChars v.data ||
          isTildeChars v.data) = true) :
    ∃ cs, versionConds v = .ok cs := by
  unfold versionConds
  split_ifs with h1 h2 h3 h4
  · exact ⟨_, rfl⟩
  · exact ⟨_, rfl⟩
  · exact ⟨_, rfl⟩
  · exact ⟨_, rfl⟩
  · simp [h1, h2, h3, h4] at h

/-- A form count of one means some form matched. -/
theorem formCount_one_or (v : String) (h : formCount v = 1) :
    (isExactChars v.data || isBoundedChars v.data || isCaretChars v.data ||
     isTildeChars v.data) = true := by
  unfold formCount at h
  cases h1 : isExactChars v.data <;> cases h2 : isBoundedChars v.data <;>
    cases h3 : isCaretChars v.data <;> cases h4 : isTildeChars v.data <;>
    simp_all

/-- A version with form count one is unchanged by trimming. -/
theorem jsTrim_eq_of_formCount_one (v : String) (h : formCount v = 1) :
    jsTrim v = v := by
  unfold jsTrim
  rw [jsTrimChars_eq_of_noWS v.data (noWS_of_form v.data (formCount_one_or v h))]

/-- An entry whose Version (when truthy) has form count one produces
its conditions without error. -/
theorem entryConds_ok (q : PackageQuery)
    (h : jsTruthy q.Version = true → formCount (q.Version.getD "") = 1) :
    ∃ cs, entryConds q = .ok cs := by
  unfold entryConds
  cases ht : jsTruthy q.Version with
  | false => simp [ht]
  | true =>
    have hc := h ht
    rw [jsTrim_eq_of_formCount_one _ hc]
    obtain ⟨cs, hcs⟩ := versionConds_ok _ (formCount_one_or _ hc)
    simp [ht, hc, hcs]

/-- An entry whose Version is truthy with form count other than one
fails with the 400 ambiguity error. -/
theorem entryConds_err (q : PackageQuery) (ht : jsTruthy q.Version = true)
    (hc : ¬ formCount (q.Version.getD "") = 1) :
    entryConds q =
      .error ⟨"Invalid or ambiguous version format: " ++ q.Version.getD "", 400⟩ := by
  unfold entryConds
  simp [ht, hc]

/-- When every truthy Version in the body has form count one, the
condition loop succeeds. -/
theorem buildConds_ok (body : List PackageQuery)
    (h : ∀ q ∈ body, jsTruthy q.Version = true → formCount (q.Version.getD "") = 1) :
    ∃ preds, buildConds body = .ok preds := by
  induction body with
  | nil => exact ⟨[], rfl⟩
  | cons q rest ih =>
    obtain ⟨cs, hcs⟩ := entryConds_ok q (h q (by simp))
    obtain ⟨preds, hps⟩ := ih (fun q2 hq2 => h q2 (by simp [hq2]))
    refine ⟨if cs.isEmpty then preds else (fun r => cs.all (fun c => c r)) :: preds, ?_⟩
    simp [buildConds, hcs, hps]

/-- When some entry of the body carries a truthy Version whose form
count is not one, the condition loop fails with a 400 error. -/
theorem buildConds_err (body : List PackageQuery)
    (h : body.any (fun q => jsTruthy q.Version &&
          !(formCount (q.Version.getD "") == 1)) = true) :
    ∃ e, buildConds body = .error e ∧ e.status = 400 := by
  induction body with
  | nil => simp at h
  | cons q rest ih =>
    by_cases hq : jsTruthy q.Version = true ∧ ¬ formCount (q.Version.getD "") = 1
    · refine ⟨⟨"Invalid or ambiguous version format: " ++ q.Version.getD "", 400⟩, ?_, rfl⟩
      simp [buildConds, entryConds_err q hq.1 hq.2]
    · have hrest : rest.any (fun q => jsTruthy q.Version &&
          !(formCount (q.Version.getD "") == 1)) = true := by
        simp only [List.any_cons, Bool.or_eq_true] at h
        rcases h with hh | hh
        · exfalso
          apply hq
          simp only [Bool.and_eq_true, Bool.not_eq_eq_eq_not, Bool.not_true,
            beq_eq_false_iff_ne, ne_eq] at hh
          exact ⟨hh.1, hh.2⟩
        · exact hh
      obtain ⟨cs, hcs⟩ := entryConds_ok q (by
        intro ht
        by_contra hc
        exact hq ⟨ht, hc⟩)
      obtain ⟨e, he, hs⟩ := ih hrest
      exact ⟨e, by simp [buildConds, hcs, he], hs⟩

/-! ## Claim theorems -/

/-- Whether a list-query result is a 400-class validation failure. -/
def is400 (r : Except CustomError PackagesListResponse) : Bool :=
  match r with
  | .error e => e.status == 400
  | .ok _ => false

/-- Claim C2 counterexample: the identity derivation is NOT injective.
The pairs (a-b, c) and (a, b-c) differ, yet both join to the string
a-b-c, so uuid v5 assigns them the same identifier. -/
theorem c2_identity_collision :
    identity "a-b" "c" = identity "a" "b-c" ∧
    (("a-b", "c") : String × String) ≠ (("a", "b-c") : String × String) :=
  ⟨rfl, by decide⟩

/-- Claim C2 (amended): the identity derivation is deterministic -
equal (name, version) inputs always give the same id - but it is not
injective: any two pairs whose dash-joined name-version strings
coincide receive the same id. -/
theorem c2_identity_deterministic_join :
    (∀ n v n2 v2 : String, n = n2 → v = v2 → identity n v = identity n2 v2) ∧
    (∀ n v n2 v2 : String, n ++ "-" ++ v = n2 ++ "-" ++ v2 →
      identity n v = identity n2 v2) :=
  ⟨fun _ _ _ _ h1 h2 => h1 ▸ h2 ▸ rfl,
   fun _ _ _ _ h => congrArg uuidv5 h⟩

/-- Claim C2 witness: the amended theorem at concrete inputs. -/
theorem c2_identity_deterministic_join_witness :
    identity "left-pad" "1.0.0" = identity "left-pad" "1.0.0" ∧
    identity "a-b" "c" = identity "a" "b-c" :=
  ⟨c2_identity_deterministic_join.1 "left-pad" "1.0.0" "left-pad" "1.0.0" rfl rfl,
   c2_identity_deterministic_join.2 "a-b" "c" "a" "b-c" rfl⟩

/-- Claim C7: an ingestion request supplying both of Content and URL,
or neither (in the JS truthiness sense the code applies: an absent or
empty string does not count as supplied), fails with the 400 validation
error before any store is touched - the state comes back unchanged. -/
theorem c7_content_url_exclusive
    (Content JSProgram URL : Option String) (debloat : Option Bool)
    (Name : Option String) (metadata : Option CreateMetadata) (env : CreateEnv)
    (st : RegistryState)
    (h : ((jsFalsy URL && jsFalsy Content) || (jsTruthy URL && jsTruthy Content)) = true) :
    packageCreate Content JSProgram URL debloat Name metadata env st =
      (.error ⟨invalidBodyMsg, 400⟩, st) := by
  simp [packageCreate, h]

/-- Claim C7 witness: the theorem at a request carrying neither
Content nor URL, and at one carrying both. -/
theorem c7_content_url_exclusive_witness :
    packageCreate none none none none none none
      ⟨some "bkt", fun _ _ => none, fun _ => none, fun _ => none, true⟩
      RegistryState.empty =
      (.error ⟨invalidBodyMsg, 400⟩, RegistryState.empty) ∧
    packageCreate (some "QUJD") none (some "https://github.com/o/r") none none none
      ⟨some "bkt", fun _ _ => none, fun _ => none, fun _ => none, true⟩
      RegistryState.empty =
      (.error ⟨invalidBodyMsg, 400⟩, RegistryState.empty) :=
  ⟨c7_content_url_exclusive none none none none none none _ _ rfl,
   c7_content_url_exclusive (some "QUJD") none (some "https://github.com/o/r")
     none none none _ _ rfl⟩

/-- Claim C5 counterexample: retrieving an unknown package id does NOT
surface the NotFoundError unchanged - the catch of packageRetrieve
wraps it into a 500 with a longer message, so the kind and message
both change at the boundary. -/
theorem c5_notfound_downgraded :
    packageRetrieve (some "bkt") "missing" RegistryState.empty =
      .error ⟨"Failed to retrieve package: Package not found.", 500⟩ ∧
    (⟨"Failed to retrieve package: Package not found.", 500⟩ : CustomError) ≠
      (⟨"Package not found.", 404⟩ : CustomError) :=
  ⟨rfl, by decide⟩

/-- Claim C5 (amended): retrieving an unknown package id raises the
inner NotFoundError (404, Package not found.), but the catch-all of
packageRetrieve downgrades every inner error, this one included, to a
500 whose message is the inner message behind a fixed text. -/
theorem c5_unknown_id_wrapped_500 (bucketName : Option String) (id : String)
    (st : RegistryState) (hb : jsFalsy bucketName = false)
    (hid : st.packages.find? (fun r => r.packageId == id) = none) :
    packageRetrieve bucketName id st =
      .error ⟨"Failed to retrieve package: Package not found.", 500⟩ := by
  unfold packageRetrieve packageRetrieveInner
  simp [hb, hid]

/-- Claim C5 witness: the amended theorem on the empty registry. -/
theorem c5_unknown_id_wrapped_500_witness :
    packageRetrieve (some "bkt") "nope" RegistryState.empty =
      .error ⟨"Failed to retrieve package: Package not found.", 500⟩ :=
  c5_unknown_id_wrapped_500 (some "bkt") "nope" RegistryState.empty rfl rfl

/-- Claim C6 counterexample: the single-entry wildcard query skips
version validation entirely - with Name the literal star, a Version
matching none of the four forms still lets the query proceed. -/
theorem c6_star_skips_validation :
    formCount "zzz" = 0 ∧
    packagesList [⟨some "zzz", none, some "*"⟩] 0 RegistryState.empty =
      .ok ⟨[], none⟩ :=
  ⟨rfl, rfl⟩

/-- Claim C6 (amended): outside the single-entry wildcard special case
(where Version is ignored), a filter entry whose Version is supplied
must match exactly one of the four forms: some entry failing that
makes the whole query fail with a 400 validation error, and when every
supplied Version has form count one the query never fails with a 400. -/
theorem c6_version_validation (body : List PackageQuery) (offsetValue : Nat)
    (st : RegistryState) (hstar : isStarQuery body = false) :
    (body.any (fun q => jsTruthy q.Version &&
        !(formCount (q.Version.getD "") == 1)) = true →
      is400 (packagesList body offsetValue st) = true) ∧
    (body.all (fun q => !(jsTruthy q.Version) ||
        (formCount (q.Version.getD "") == 1)) = true →
      is400 (packagesList body offsetValue st) = false) := by
  constructor
  · intro hany
    have hne : body.isEmpty = false := by
      cases body
      · simp at hany
      · rfl
    obtain ⟨e, he, hs⟩ := buildConds_err body hany
    unfold packagesList listMatchedRows
    simp [hne, hstar, he, is400, hs]
  · intro hall
    cases hne : body.isEmpty
    · have hgood : ∀ q ∈ body, jsTruthy q.Version = true →
          formCount (q.Version.getD "") = 1 := by
        intro q hq ht
        have := (List.all_eq_true.mp hall) q hq
        simp only [ht, Bool.not_true, Bool.false_or, beq_iff_eq] at this
        exact this
      obtain ⟨preds, hps⟩ := buildConds_ok body hgood
      unfold packagesList listMatchedRows
      cases hbad : hasBadIdBind body <;> simp [hne, hstar, hps, hbad, is400]
    · unfold packagesList listMatchedRows
      simp [hne, is400]

/-- Claim C6 witness: the amended theorem at a non-wildcard body with
an invalid Version (400) and at one with a valid exact Version (no
400). -/
theorem c6_version_validation_witness :
    is400 (packagesList [⟨some "zzz", none, some "lodash"⟩] 0 RegistryState.empty) = true ∧
    is400 (packagesList [⟨some "1.2.3", none, some "lodash"⟩] 0 RegistryState.empty) = false :=
  ⟨(c6_version_validation [⟨some "zzz", none, some "lodash"⟩] 0
      RegistryState.empty rfl).1 rfl,
   (c6_version_validation [⟨some "1.2.3", none, some "lodash"⟩] 0
      RegistryState.empty rfl).2 rfl⟩

/-- Claim C8: the pagination cursor of packagesList. For a query whose
matched row set is rows: nextOffset is offset plus ten exactly when
the page holds ten rows; reading at an offset equal to the total row
count yields an empty page with a null cursor (the extra page of a
result set sized an exact multiple of ten); and whenever at least ten
rows lie beyond the offset the cursor advances by ten. -/
theorem c8_pagination_cursor (body : List PackageQuery) (offsetValue : Nat)
    (st : RegistryState) (rows : List PackageRow)
    (hrows : listMatchedRows body st = .ok rows) :
    (∀ r, packagesList body offsetValue st = .ok r →
      ((r.nextOffset = some (offsetValue + 10)) ↔ r.packages.length = 10)) ∧
    (rows.length = offsetValue →
      packagesList body offsetValue st = .ok ⟨[], none⟩) ∧
    (rows.length ≥ offsetValue + 10 →
      packagesList body offsetValue st =
        .ok ⟨(rows.drop offsetValue).take 10, some (offsetValue + 10)⟩) := by
  refine ⟨?_, ?_, ?_⟩
  · intro r hr
    simp only [packagesList, hrows, Except.ok.injEq] at hr
    subst hr
    cases h10 : ((rows.drop offsetValue).take 10).length == 10 <;> simp_all
  · intro hlen
    have hdrop : rows.drop offsetValue = [] :=
      List.drop_eq_nil_of_le (le_of_eq hlen)
    simp [packagesList, hrows, hdrop]
  · intro hge
    have hlen : ((rows.drop offsetValue).take 10).length = 10 := by
      simp only [List.length_take, List.length_drop]
      omega
    simp [packagesList, hrows, hlen]

/-- Ten rows for the pagination witness. -/
def tenRows : List PackageRow :=
  (List.range 10).map (fun i => ⟨i, none, "1.0.0", "", false⟩)

/-- A registry holding exactly ten package rows. -/
def tenRowState : RegistryState := ⟨[], tenRows, [], []⟩

/-- Claim C8 witness: with exactly ten matching rows, the first page
carries nextOffset ten and the follow-up page at offset ten is empty
with a null cursor. -/
theorem c8_pagination_cursor_witness :
    packagesList [] 0 tenRowState = .ok ⟨(tenRows.drop 0).take 10, some (0 + 10)⟩ ∧
    packagesList [] 10 tenRowState = .ok ⟨[], none⟩ :=
  ⟨(c8_pagination_cursor [] 0 tenRowState tenRows rfl).2.2 (by decide),
   (c8_pagination_cursor [] 10 tenRowState tenRows rfl).2.1 (by decide)⟩

/-- Claim C9: registry reset runs its two phases in order. With the
bucket configured: when both phases succeed the reset reports success,
every blob whose key sits under packages/ is gone (other blobs
survive) and all relational tables are empty; when phase 1 (the S3
wipe) fails the error is surfaced with the fixed wrapping text and the
relational store is untouched - phase 2 never ran; when phase 2 (the
schema reset) fails the blobs are already deleted and stay deleted -
the failure is surfaced and nothing is rolled back. -/
theorem c9_reset_phases (env : ResetEnv) (st : RegistryState)
    (hb : jsFalsy env.bucketName = false) :
    (env.s3Error = none → env.dbError = none →
      registryReset env st =
        (.ok (), ⟨st.blobs.filter (fun kv => !(kv.1.startsWith "packages/")), [], [], []⟩) ∧
      ∀ kv ∈ (registryReset env st).2.blobs, kv.1.startsWith "packages/" = false) ∧
    (∀ m, env.s3Error = some m →
      registryReset env st = (.error ("Failed to reset registry: " ++ m), st)) ∧
    (∀ m, env.s3Error = none → env.dbError = some m →
      registryReset env st = (.error ("Failed to reset registry: " ++ m),
        { st with blobs := st.blobs.filter (fun kv => !(kv.1.startsWith "packages/")) })) := by
  refine ⟨?_, ?_, ?_⟩
  · intro hs3 hdb
    constructor
    · simp [registryReset, hb, hs3, hdb, executeSqlFile]
    · intro kv hkv
      have hres : (registryReset env st).2 =
          ⟨st.blobs.filter (fun kv => !(kv.1.startsWith "packages/")), [], [], []⟩ := by
        simp [registryReset, hb, hs3, hdb, executeSqlFile]
      rw [hres] at hkv
      have hmem := List.mem_filter.mp hkv
      simpa using hmem.2
  · intro m hs3
    simp [registryReset, hb, hs3]
  · intro m hs3 hdb
    simp [registryReset, hb, hs3, hdb]

/-- A registry with one blob under packages/, one foreign blob and one
row, for the reset witness. -/
def resetState : RegistryState :=
  ⟨[("packages/a/v1.0.0/package.zip", [1]), ("users/u", [2])],
   [⟨0, none, "1.0.0", "id0", true⟩], [], []⟩

/-- Claim C9 witness: the theorem at a concrete registry under a
successful environment, an S3-failing one and a DB-failing one. -/
theorem c9_reset_phases_witness :
    registryReset ⟨some "bkt", none, none⟩ resetState =
      (.ok (), ⟨resetState.blobs.filter (fun kv => !(kv.1.startsWith "packages/")),
                [], [], []⟩) ∧
    registryReset ⟨some "bkt", some "s3 down", none⟩ resetState =
      (.error ("Failed to reset registry: " ++ "s3 down"), resetState) ∧
    registryReset ⟨some "bkt", none, some "db down"⟩ resetState =
      (.error ("Failed to reset registry: " ++ "db down"),
       { resetState with
         blobs := resetState.blobs.filter (fun kv => !(kv.1.startsWith "packages/")) }) :=
  ⟨((c9_reset_phases ⟨some "bkt", none, none⟩ resetState rfl).1 rfl rfl).1,
   (c9_reset_phases ⟨some "bkt", some "s3 down", none⟩ resetState rfl).2.1 "s3 down" rfl,
   (c9_reset_phases ⟨some "bkt", none, some "db down"⟩ resetState rfl).2.2 "db down" rfl rfl⟩

/-- jsFalsy at the undefined value. -/
theorem jsFalsy_none : jsFalsy none = true := rfl

/-- The id check always lands on the derived identity: a missing,
empty or mismatched client id is replaced, and a matching one already
equals it. -/
theorem derivedPackageId_eq (p0 : Option String) (tid : String) :
    derivedPackageId p0 tid = tid := by
  unfold derivedPackageId
  cases p0 with
  | none => rfl
  | some p =>
    by_cases h : p = "" ∨ ¬(p = tid)
    · simp [h]
    · push_neg at h
      obtain ⟨h1, h2⟩ := h
      subst h2
      simp

/-- When the request supplies a name (metadata or body), the resolver
is skipped: a truthy body Name wins, else the metadata name stays, and
the incoming version passes through untouched. -/
theorem resolveNameVersion_skip (pn0 pv1 Name Content URL : Option String)
    (env : CreateEnv) (h : (jsFalsy pn0 && jsFalsy Name) = false) :
    resolveNameVersion pn0 pv1 Name Content URL env =
      .ok (if jsTruthy Name then some (jsTrim (Name.getD "")) else pn0, pv1, none) := by
  unfold resolveNameVersion
  rw [h]
  cases ht : jsTruthy Name <;> simp [ht]

/-- When no name is supplied and the archive is inline, the zip
resolver runs and its output replaces BOTH the name and the version,
the metadata-supplied version included. -/
theorem resolveNameVersion_zip_override (pn0 pv1 Name : Option String)
    (c : String) (env : CreateEnv) (n2 v2 : Option String)
    (h : (jsFalsy pn0 && jsFalsy Name) = true)
    (hz : env.zipInfo c = some (n2, v2)) :
    resolveNameVersion pn0 pv1 Name (some c) none env = .ok (n2, v2, none) := by
  unfold resolveNameVersion
  rw [h]
  simp [hz]

/-- Symbolic execution of the guarded ingestion tail in the inline
branch: with the bucket configured, the identity free, the upload
succeeding and a truthy Content without URL, ingestion writes the blob
at the name/version key, appends the three rows carrying the effective
version (defaulted for the rows) and echoes Content back unchanged. -/
theorem packageCreateResolved_content (pn pv packageId0 : Option String)
    (repo : Option (String × String)) (Content JSProgram URL : Option String)
    (debloatVal : Bool) (env : CreateEnv) (st : RegistryState)
    (hc : (jsTruthy Content && jsFalsy URL) = true)
    (hb : jsFalsy env.bucketName = false)
    (hex : packageExistsQuery st (identity (tmpl pn) (tmpl pv)) = false)
    (hput : env.s3PutOk = true) :
    packageCreateResolved pn pv packageId0 repo Content JSProgram URL debloatVal env st =
      (.ok ⟨⟨pn, pv, identity (tmpl pn) (tmpl pv)⟩, ⟨Content, JSProgram⟩⟩,
       insertIntoPackageDataQuery
         (insertIntoMetadataQuery
           (insertPackageQuery
             (putBlob st (createBlobKey pn pv) (base64Decode (Content.getD "")))
             pn (pv.getD "1.0.0") (identity (tmpl pn) (tmpl pv)) true)
           pn (pv.getD "1.0.0") (identity (tmpl pn) (tmpl pv)))
         (identity (tmpl pn) (tmpl pv)) true URL debloatVal JSProgram) := by
  have hc2 : jsTruthy Content = true ∧ jsFalsy URL = true := by simpa using hc
  obtain ⟨hct, huf⟩ := hc2
  simp [packageCreateResolved, derivedPackageId_eq, hb, hex, hput, hct, huf,
    jsFalsy_none]

/-- Symbolic execution of the guarded ingestion tail in the URL
branch: the download is base64-encoded on arrival, the blob receives
its base64-decoding (the original archive bytes), and the response
Content is btoa of the base64 text - base64 applied twice. -/
theorem packageCreateResolved_url (pn pv packageId0 : Option String)
    (repo : Option (String × String)) (JSProgram URL : Option String)
    (debloatVal : Bool) (env : CreateEnv) (st : RegistryState) (bytes : List Nat)
    (hu : jsTruthy URL = true)
    (hb : jsFalsy env.bucketName = false)
    (hex : packageExistsQuery st (identity (tmpl pn) (tmpl pv)) = false)
    (hdl : env.download ("https://api.github.com/repos/" ++ tmpl (repo.map (fun r => r.1)) ++
        "/" ++ tmpl (repo.map (fun r => r.2)) ++ "/zipball") = some bytes)
    (hput : env.s3PutOk = true) :
    packageCreateResolved pn pv packageId0 repo none JSProgram URL debloatVal env st =
      (.ok ⟨⟨pn, pv, identity (tmpl pn) (tmpl pv)⟩,
            ⟨some (btoa (base64Encode bytes)), JSProgram⟩⟩,
       insertIntoPackageDataQuery
         (insertIntoMetadataQuery
           (insertPackageQuery
             (putBlob st (createBlobKey pn pv) (base64Decode (base64Encode bytes)))
             pn (pv.getD "1.0.0") (identity (tmpl pn) (tmpl pv))
             (jsFalsy (some (base64Encode bytes))))
           pn (pv.getD "1.0.0") (identity (tmpl pn) (tmpl pv)))
         (identity (tmpl pn) (tmpl pv)) (jsFalsy (some (base64Encode bytes)))
         URL debloatVal JSProgram) := by
  have huf : jsFalsy URL = false := by
    cases hf : jsFalsy URL
    · rfl
    · rw [jsTruthy, hf] at hu
      simp at hu
  simp [packageCreateResolved, derivedPackageId_eq, hb, hex, hdl, hput, hu, huf,
    jsFalsy_none]

/-- jsTruthy at the undefined value. -/
theorem jsTruthy_none : jsTruthy none = false := rfl

/-- Claim C3: when the derived identity already exists, ingestion (for
any request that passes validation and resolves its name and version)
fails with the 409 Conflict error and performs zero writes - the
returned state is the input state, no blob upload and no row insert
having happened, because the Existence Guard runs before every write. -/
theorem c3_conflict_rejected_no_writes
    (Content JSProgram URL : Option String) (debloat : Option Bool)
    (Name : Option String) (metadata : Option CreateMetadata) (env : CreateEnv)
    (st : RegistryState) (pn pv : Option String) (repo : Option (String × String))
    (hval : ((jsFalsy URL && jsFalsy Content) || (jsTruthy URL && jsTruthy Content)) = false)
    (hres : resolveNameVersion ((metadata.bind CreateMetadata.Name).map jsTrim)
        (if jsFalsy ((metadata.bind CreateMetadata.Version).map jsTrim) then some "1.0.0"
         else (metadata.bind CreateMetadata.Version).map jsTrim)
        Name Content URL env = .ok (pn, pv, repo))
    (hb : jsFalsy env.bucketName = false)
    (hex : packageExistsQuery st (identity (tmpl pn) (tmpl pv)) = true) :
    packageCreate Content JSProgram URL debloat Name metadata env st =
      (.error ⟨"Package already exists.", 409⟩, st) := by
  simp only [packageCreate, hval, Bool.false_eq_true, if_false, hres]
  simp [packageCreateResolved, derivedPackageId_eq, hb, hex]

/-- A registry already holding the identity of (X, 1.0.0). -/
def c3State : RegistryState :=
  ⟨[], [⟨0, some "X", "1.0.0", identity "X" "1.0.0", true⟩], [], []⟩

/-- Claim C3 witness: republishing (X, 1.0.0) into a registry that
already holds its identity yields the Conflict error and the untouched
state. -/
theorem c3_conflict_rejected_no_writes_witness :
    packageCreate (some "QUJD") none none none none
      (some ⟨some "1.0.0", none, some "X"⟩)
      ⟨some "bkt", fun _ _ => none, fun _ => none, fun _ => none, true⟩ c3State =
      (.error ⟨"Package already exists.", 409⟩, c3State) :=
  c3_conflict_rejected_no_writes (some "QUJD") none none none none
    (some ⟨some "1.0.0", none, some "X"⟩)
    ⟨some "bkt", fun _ _ => none, fun _ => none, fun _ => none, true⟩ c3State
    (some "X") (some "1.0.0") none rfl rfl rfl rfl

/-- The ingestion environment of the C4 scenario: the zip resolver
reports (pkg, 9.9.9). -/
def c4Env : CreateEnv :=
  ⟨some "bkt", fun _ _ => none, fun _ => some (some "pkg", some "9.9.9"),
   fun _ => none, true⟩

/-- The C4 counterexample run: metadata supplies Version 2.0.0, no
name is supplied anywhere, the archive is inline. -/
def c4Request : Except CustomError PackageResponse × RegistryState :=
  packageCreate (some "QQ==") none none none none
    (some ⟨some "2.0.0", none, none⟩) c4Env RegistryState.empty

/-- Claim C4 counterexample: with metadata Version 2.0.0 supplied but
no name, the Origin Resolver runs and its version 9.9.9 overrides the
metadata value - the response and the stored row both carry 9.9.9. -/
theorem c4_resolver_overrides_metadata_version :
    c4Request.1.toOption.map (fun r => r.metadata.Version) = some (some "9.9.9") ∧
    c4Request.2.packages.map (fun r => r.version) = ["9.9.9"] :=
  ⟨rfl, rfl⟩

/-- Claim C4 (amended): the effective-version precedence of ingestion.
When the request supplies a name (body Name beats metadata name), the
resolver is skipped and the effective version is the trimmed metadata
Version, defaulted to 1.0.0 when absent or empty; the guarded tail
then uses that version for the response, the identity, the blob key
and the stored rows. When NO name is supplied, the resolver runs and
its output replaces both name and version - even a metadata-supplied
Version. -/
theorem c4_effective_version :
    (∀ (pn0 pv1 Name Content URL : Option String) (env : CreateEnv),
      (jsFalsy pn0 && jsFalsy Name) = false →
      resolveNameVersion pn0 pv1 Name Content URL env =
        .ok (if jsTruthy Name then some (jsTrim (Name.getD "")) else pn0, pv1, none)) ∧
    (∀ (Content JSProgram URL : Option String) (debloat : Option Bool)
       (Name : Option String) (metadata : Option CreateMetadata) (env : CreateEnv)
       (st : RegistryState),
      ((jsFalsy URL && jsFalsy Content) || (jsTruthy URL && jsTruthy Content)) = false →
      (jsFalsy ((metadata.bind CreateMetadata.Name).map jsTrim) && jsFalsy Name) = false →
      packageCreate Content JSProgram URL debloat Name metadata env st =
        packageCreateResolved
          (if jsTruthy Name then some (jsTrim (Name.getD ""))
           else (metadata.bind CreateMetadata.Name).map jsTrim)
          (if jsFalsy ((metadata.bind CreateMetadata.Version).map jsTrim) then some "1.0.0"
           else (metadata.bind CreateMetadata.Version).map jsTrim)
          ((metadata.bind CreateMetadata.ID).map jsTrim) none Content JSProgram URL
          (debloat.getD false) env st) ∧
    (∀ (pn pv packageId0 : Option String) (repo : Option (String × String))
       (Content JSProgram URL : Option String) (debloatVal : Bool) (env : CreateEnv)
       (st : RegistryState),
      (jsTruthy Content && jsFalsy URL) = true →
      jsFalsy env.bucketName = false →
      packageExistsQuery st (identity (tmpl pn) (tmpl pv)) = false →
      env.s3PutOk = true →
      packageCreateResolved pn pv packageId0 repo Content JSProgram URL debloatVal env st =
        (.ok ⟨⟨pn, pv, identity (tmpl pn) (tmpl pv)⟩, ⟨Content, JSProgram⟩⟩,
         insertIntoPackageDataQuery
           (insertIntoMetadataQuery
             (insertPackageQuery
               (putBlob st (createBlobKey pn pv) (base64Decode (Content.getD "")))
               pn (pv.getD "1.0.0") (identity (tmpl pn) (tmpl pv)) true)
             pn (pv.getD "1.0.0") (identity (tmpl pn) (tmpl pv)))
           (identity (tmpl pn) (tmpl pv)) true URL debloatVal JSProgram)) ∧
    (∀ (pn0 pv1 Name : Option String) (c : String) (env : CreateEnv)
       (n2 v2 : Option String),
      (jsFalsy pn0 && jsFalsy Name) = true →
      env.zipInfo c = some (n2, v2) →
      resolveNameVersion pn0 pv1 Name (some c) none env = .ok (n2, v2, none)) := by
  refine ⟨fun pn0 pv1 Name Content URL env h =>
      resolveNameVersion_skip pn0 pv1 Name Content URL env h, ?_,
    fun pn pv packageId0 repo Content JSProgram URL debloatVal env st hc hb hex hput =>
      packageCreateResolved_content pn pv packageId0 repo Content JSProgram URL
        debloatVal env st hc hb hex hput,
    fun pn0 pv1 Name c env n2 v2 h hz =>
      resolveNameVersion_zip_override pn0 pv1 Name c env n2 v2 h hz⟩
  intro Content JSProgram URL debloat Name metadata env st hval hname
  simp only [packageCreate, hval, Bool.false_eq_true, if_false,
    resolveNameVersion_skip _ _ _ _ _ _ hname]

/-- Claim C4 witness: the amended precedence theorem at concrete
inputs - name supplied with metadata Version 2.0.0 (parts one to
three) and no name supplied with the resolver answering 9.9.9 (part
four). -/
theorem c4_effective_version_witness :
    resolveNameVersion (some "X") (some "2.0.0") none (some "QUJD") none c4Env =
      .ok (if jsTruthy none then some (jsTrim (Option.getD none ""))
           else some "X", some "2.0.0", none) ∧
    packageCreate (some "QUJD") none none none none
      (some ⟨some "2.0.0", none, some "X"⟩) c4Env RegistryState.empty =
      packageCreateResolved
        (if jsTruthy none then some (jsTrim (Option.getD none ""))
         else ((some (⟨some "2.0.0", none, some "X"⟩ : CreateMetadata)).bind
            CreateMetadata.Name).map jsTrim)
        (if jsFalsy (((some (⟨some "2.0.0", none, some "X"⟩ : CreateMetadata)).bind
            CreateMetadata.Version).map jsTrim) then some "1.0.0"
         else ((some (⟨some "2.0.0", none, some "X"⟩ : CreateMetadata)).bind
            CreateMetadata.Version).map jsTrim)
        (((some (⟨some "2.0.0", none, some "X"⟩ : CreateMetadata)).bind
            CreateMetadata.ID).map jsTrim)
        none (some "QUJD") none none (Option.getD none false) c4Env
        RegistryState.empty ∧
    packageCreateResolved (some "X") (some "2.0.0") none none (some "QUJD") none
      none false c4Env RegistryState.empty =
      (.ok ⟨⟨some "X", some "2.0.0",
            identity (tmpl (some "X")) (tmpl (some "2.0.0"))⟩,
            ⟨some "QUJD", none⟩⟩,
       insertIntoPackageDataQuery
         (insertIntoMetadataQuery
           (insertPackageQuery
             (putBlob RegistryState.empty
               (createBlobKey (some "X") (some "2.0.0"))
               (base64Decode (Option.getD (some "QUJD") "")))
             (some "X") ((some "2.0.0").getD "1.0.0")
             (identity (tmpl (some "X")) (tmpl (some "2.0.0"))) true)
           (some "X") ((some "2.0.0").getD "1.0.0")
           (identity (tmpl (some "X")) (tmpl (some "2.0.0"))))
         (identity (tmpl (some "X")) (tmpl (some "2.0.0"))) true none false none) ∧
    resolveNameVersion none (some "2.0.0") none (some "QQ==") none c4Env =
      .ok (some "pkg", some "9.9.9", none) :=
  ⟨c4_effective_version.1 (some "X") (some "2.0.0") none (some "QUJD") none c4Env rfl,
   c4_effective_version.2.1 (some "QUJD") none none none none
     (some ⟨some "2.0.0", none, some "X"⟩) c4Env RegistryState.empty rfl rfl,
   c4_effective_version.2.2.1 (some "X") (some "2.0.0") none none (some "QUJD")
     none none false c4Env RegistryState.empty rfl rfl rfl rfl,
   c4_effective_version.2.2.2 none (some "2.0.0") none "QQ==" c4Env
     (some "pkg") (some "9.9.9") rfl rfl⟩

/-- Claim C10: the Content echoed by a successful ingestion. In the
URL branch the response data.Content is the base64 encoding of the
code points of the base64 text of the downloaded archive - base64
applied twice - while the blob store receives the singly-decoded
archive bytes; in the inline branch data.Content is the supplied
Content string unchanged. -/
theorem c10_content_echo_encoding :
    (∀ (JSProgram URL : Option String) (debloat : Option Bool)
       (Name : Option String) (metadata : Option CreateMetadata) (env : CreateEnv)
       (st : RegistryState) (pn pv : Option String)
       (repo : Option (String × String)) (bytes : List Nat),
      jsTruthy URL = true →
      resolveNameVersion ((metadata.bind CreateMetadata.Name).map jsTrim)
        (if jsFalsy ((metadata.bind CreateMetadata.Version).map jsTrim) then some "1.0.0"
         else (metadata.bind CreateMetadata.Version).map jsTrim)
        Name none URL env = .ok (pn, pv, repo) →
      jsFalsy env.bucketName = false →
      packageExistsQuery st (identity (tmpl pn) (tmpl pv)) = false →
      env.download ("https://api.github.com/repos/" ++ tmpl (repo.map (fun r => r.1)) ++
        "/" ++ tmpl (repo.map (fun r => r.2)) ++ "/zipball") = some bytes →
      (∀ b ∈ bytes, b < 256) →
      env.s3PutOk = true →
      (packageCreate none JSProgram URL debloat Name metadata env st).1 =
        .ok ⟨⟨pn, pv, identity (tmpl pn) (tmpl pv)⟩,
             ⟨some (base64Encode ((base64Encode bytes).data.map Char.toNat)), JSProgram⟩⟩ ∧
      lookupBlob (packageCreate none JSProgram URL debloat Name metadata env st).2
        (createBlobKey pn pv) = some bytes) ∧
    (∀ (Content JSProgram : Option String) (debloat : Option Bool)
       (Name : Option String) (metadata : Option CreateMetadata) (env : CreateEnv)
       (st : RegistryState) (pn pv : Option String)
       (repo : Option (String × String)),
      jsTruthy Content = true →
      resolveNameVersion ((metadata.bind CreateMetadata.Name).map jsTrim)
        (if jsFalsy ((metadata.bind CreateMetadata.Version).map jsTrim) then some "1.0.0"
         else (metadata.bind CreateMetadata.Version).map jsTrim)
        Name Content none env = .ok (pn, pv, repo) →
      jsFalsy env.bucketName = false →
      packageExistsQuery st (identity (tmpl pn) (tmpl pv)) = false →
      env.s3PutOk = true →
      (packageCreate Content JSProgram none debloat Name metadata env st).1 =
        .ok ⟨⟨pn, pv, identity (tmpl pn) (tmpl pv)⟩, ⟨Content, JSProgram⟩⟩) := by
  constructor
  · intro JSProgram URL debloat Name metadata env st pn pv repo bytes hu hres hb hex hdl hbytes hput
    have huf : jsFalsy URL = false := by
      cases hf : jsFalsy URL
      · rfl
      · rw [jsTruthy, hf] at hu
        simp at hu
    have hval : ((jsFalsy URL && jsFalsy (none : Option String)) ||
        (jsTruthy URL && jsTruthy (none : Option String))) = false := by
      simp [huf, jsTruthy_none]
    have hred : packageCreate none JSProgram URL debloat Name metadata env st =
        packageCreateResolved pn pv ((metadata.bind CreateMetadata.ID).map jsTrim)
          repo none JSProgram URL (debloat.getD false) env st := by
      simp only [packageCreate, hval, Bool.false_eq_true, if_false, hres]
    rw [hred,
      packageCreateResolved_url pn pv ((metadata.bind CreateMetadata.ID).map jsTrim)
        repo JSProgram URL (debloat.getD false) env st bytes hu hb hex hdl hput]
    constructor
    · simp [btoa]
    · simp only [lookupBlob, putBlob, insertIntoPackageDataQuery,
        insertIntoMetadataQuery, insertPackageQuery, List.find?, beq_self_eq_true,
        Option.map_some]
      rw [base64_decode_encode bytes hbytes]
      rfl
  · intro Content JSProgram debloat Name metadata env st pn pv repo hc hres hb hex hput
    have hcf : jsFalsy Content = false := by
      cases hf : jsFalsy Content
      · rfl
      · rw [jsTruthy, hf] at hc
        simp at hc
    have hval : ((jsFalsy (none : Option String) && jsFalsy Content) ||
        (jsTruthy (none : Option String) && jsTruthy Content)) = false := by
      simp [hcf, jsTruthy_none]
    have hred : packageCreate Content JSProgram none debloat Name metadata env st =
        packageCreateResolved pn pv ((metadata.bind CreateMetadata.ID).map jsTrim)
          repo Content JSProgram none (debloat.getD false) env st := by
      simp only [packageCreate, hval, Bool.false_eq_true, if_false, hres]
    rw [hred,
      packageCreateResolved_content pn pv ((metadata.bind CreateMetadata.ID).map jsTrim)
        repo Content JSProgram none (debloat.getD false) env st
        (by simp [hc, jsFalsy_none]) hb hex hput]

/-- The ingestion environment of the C10 witness: the repo resolver
answers (p, 1.0.0) and the download yields the bytes 1, 2, 3. -/
def c10Env : CreateEnv :=
  ⟨some "bkt", fun _ _ => some (some "p", some "1.0.0"), fun _ => none,
   fun _ => some [1, 2, 3], true⟩

/-- Claim C10 witness: the theorem at a concrete URL ingestion (the
echoed Content is base64 applied twice to the three downloaded bytes,
the blob holds the bytes themselves) and at a concrete inline
ingestion (the echoed Content is the supplied string). -/
theorem c10_content_echo_encoding_witness :
    (packageCreate none none (some "https://github.com/o/r") none none none
        c10Env RegistryState.empty).1 =
      .ok ⟨⟨some "p", some "1.0.0",
            identity (tmpl (some "p")) (tmpl (some "1.0.0"))⟩,
           ⟨some (base64Encode ((base64Encode [1, 2, 3]).data.map Char.toNat)), none⟩⟩ ∧
    lookupBlob (packageCreate none none (some "https://github.com/o/r") none none none
        c10Env RegistryState.empty).2
      (createBlobKey (some "p") (some "1.0.0")) = some [1, 2, 3] ∧
    (packageCreate (some "QUJD") none none none none
        (some ⟨some "1.0.0", none, some "X"⟩) c10Env RegistryState.empty).1 =
      .ok ⟨⟨some "X", some "1.0.0",
            identity (tmpl (some "X")) (tmpl (some "1.0.0"))⟩,
           ⟨some "QUJD", none⟩⟩ :=
  ⟨(c10_content_echo_encoding.1 none (some "https://github.com/o/r") none none none
      c10Env RegistryState.empty (some "p") (some "1.0.0") (some ("o", "r"))
      [1, 2, 3] rfl rfl rfl rfl rfl (by decide) rfl).1,
   (c10_content_echo_encoding.1 none (some "https://github.com/o/r") none none none
      c10Env RegistryState.empty (some "p") (some "1.0.0") (some ("o", "r"))
      [1, 2, 3] rfl rfl rfl rfl rfl (by decide) rfl).2,
   c10_content_echo_encoding.2 (some "QUJD") none none none
     (some ⟨some "1.0.0", none, some "X"⟩) c10Env RegistryState.empty
     (some "X") (some "1.0.0") none rfl rfl rfl rfl rfl⟩

/-- The ingestion environment of the C1 run. -/
def c1Env : CreateEnv :=
  ⟨some "bkt", fun _ _ => none, fun _ => none, fun _ => none, true⟩

/-- The C1 run: a successful inline ingestion of (X, 1.0.0). -/
def c1Create : Except CustomError PackageResponse × RegistryState :=
  packageCreate (some "QUJD") none none none none
    (some ⟨some "1.0.0", none, some "X"⟩) c1Env RegistryState.empty

/-- Claim C1: the create-then-retrieve round trip is broken. The
ingestion of (X, 1.0.0) succeeds and writes its blob at the key
packages/X/v1.0.0/package.zip built from the NAME, but packageRetrieve
builds its S3 key from the package ID (line 697), reads the distinct
key packages/{id}/v1.0.0/package.zip, finds nothing there and fails -
so a retrieve with the ID returned by ingestion never reads the blob
the ingestion wrote. -/
theorem c1_create_retrieve_key_mismatch :
    c1Create.1 = .ok ⟨⟨some "X", some "1.0.0",
        "0fa1e118-4dd5-5760-9f72-e21644b59962"⟩, ⟨some "QUJD", none⟩⟩ ∧
    c1Create.2.blobs.map (fun kv => kv.1) = ["packages/X/v1.0.0/package.zip"] ∧
    packageRetrieve (some "bkt") "0fa1e118-4dd5-5760-9f72-e21644b59962" c1Create.2 =
      .error ⟨"Failed to retrieve package: The specified key does not exist.", 500⟩ ∧
    ("packages/0fa1e118-4dd5-5760-9f72-e21644b59962/v1.0.0/package.zip" : String) ≠
      "packages/X/v1.0.0/package.zip" :=
  ⟨rfl, rfl, rfl, by decide⟩
